import Mathlib

/-
Verification of the heading-turn controllers of the Cyberdragons-Unearthed-2025
repository.  The four Python modules (p_turn.py, p_turn_speed.py, pi_turn.py,
pid_turn.py) are shallowly embedded: float arithmetic is modelled over the
rationals, the Python modulo on floats by a floor-based remainder, and each
while-loop by an explicit tick function iterated over a sensor trace
(sensor : Nat -> Rat gives the imu heading read at each iteration).
-/

/-- Python float modulo with positive modulus: x % m = x - m * floor (x / m). -/
def pymod (x m : ℚ) : ℚ := x - m * ⌊x / m⌋

namespace PTurn

/-- Tuning knobs of p_turn.py (lines 4-7). -/
def p_turn_k : ℚ := 2/5

def p_turn_c : ℚ := 22

def tolerance : ℚ := 1

/-- Helper of p_turn.py line 16-17: unconditional `deg % 360`. -/
def wrap_0_360 (deg : ℚ) : ℚ := pymod deg 360

/-- Helper of p_turn.py lines 19-21: signed smallest error in [-180, 180). -/
def wrapped_err (cur desired : ℚ) : ℚ := pymod (desired - cur + 180) 360 - 180

/-- Helper of p_turn.py lines 23-29: clamp to motor.dc range [-100, 100]. -/
def clamp_dc (x : ℚ) : ℚ := if x > 100 then 100 else if x < -100 then -100 else x

/-- Direction resolution of p_turn.py line 57: `sgn = 1 if err > 0 else -1`. -/
def sgn (err : ℚ) : ℚ := if err > 0 then 1 else -1

/-- State of the while-loop of `_p_turn_heading_sync`: whether the loop has
exited, the consecutive in-tolerance counter, and the last duty commands sent
to the two motors (0 before any command, and 0 again after the post-loop stop). -/
structure LoopSt where
  broken : Bool
  stable : ℕ
  left : ℚ
  right : ℚ
deriving DecidableEq

def initSt : LoopSt := ⟨false, 0, 0, 0⟩

/-- One iteration of the while-loop of `_p_turn_heading_sync` (p_turn.py lines
43-62), given the imu heading `cur` read at the top of the iteration.  When the
debounced stop condition fires the loop breaks and the post-loop stop
(lines 65-66) zeroes both motors; otherwise the duty `sign(err)*(k*|err|+c)` is
sent to both motors (this branch also runs on an in-tolerance sample that has
not yet reached the needed count, exactly as in the source). -/
def tick (desired cur : ℚ) (s : LoopSt) : LoopSt :=
  if s.broken then s
  else
    let err := wrapped_err cur desired
    if |err| ≤ tolerance ∧ s.stable + 1 ≥ 2 then
      ⟨true, s.stable + 1, 0, 0⟩
    else
      let stable1 := if |err| ≤ tolerance then s.stable + 1 else 0
      let base := p_turn_k * |err| + p_turn_c
      let duty := clamp_dc base
      ⟨false, stable1, clamp_dc (sgn err * duty), clamp_dc (-(sgn err) * duty)⟩

/-- State of `_p_turn_heading_sync` after n loop iterations on a sensor trace. -/
def run (desired : ℚ) (sensor : ℕ → ℚ) : ℕ → LoopSt
  | 0 => initSt
  | n + 1 => tick desired (sensor n) (run desired sensor n)

/-- State of the pivot loop of `_p_turn_pivot_sync` (p_turn.py lines 129-148). -/
structure PivotSt where
  broken : Bool
  ml : ℚ
  mr : ℚ
deriving DecidableEq

/-- One iteration of the pivot while-loop (p_turn.py lines 132-146): the loop
breaks on the very first in-tolerance sample (no stable counter), and the
post-loop stop zeroes both motors. -/
def pivotTick (desired : ℚ) (pivot_left : Bool) (cur : ℚ) (s : PivotSt) : PivotSt :=
  if s.broken then s
  else
    let err := wrapped_err cur desired
    if |err| ≤ tolerance then ⟨true, 0, 0⟩
    else
      let duty := clamp_dc (p_turn_k * |err| + p_turn_c)
      if pivot_left then ⟨false, 0, clamp_dc (-(sgn err) * duty)⟩
      else ⟨false, clamp_dc (sgn err * duty), 0⟩

def pivotRun (desired : ℚ) (pivot_left : Bool) (sensor : ℕ → ℚ) : ℕ → PivotSt
  | 0 => ⟨false, 0, 0⟩
  | n + 1 => pivotTick desired pivot_left (sensor n) (pivotRun desired pivot_left sensor n)

/-- Module-level mutable state of p_turn.py (lines 10-12). -/
structure Globals where
  target_heading : ℚ
  previous_heading : List ℚ
  prev_heading_num : ℕ
deriving DecidableEq

def initGlobals : Globals := ⟨0, [0], 0⟩

/-- Post-loop commit of `_p_turn_heading_sync` / `_p_turn_heading_async`
(p_turn.py lines 68-69): append the wrapped target, bump the index. -/
def headingCommit (desired : ℚ) (g : Globals) : Globals :=
  ⟨g.target_heading, g.previous_heading ++ [wrap_0_360 desired], g.prev_heading_num + 1⟩

/-- Public operations of p_turn.py that touch the module state. -/
inductive Op where
  | headingTurn (desired : ℚ)
  | incrementalTurn (amount : ℚ)
  | pivotIncremental (amount : ℚ)

/-- Effect of one completed public operation on the module state, assuming the
underlying control loop returned.  An absolute heading turn commits its wrapped
target; an incremental turn resolves its target from
previous_heading[prev_heading_num] (p_turn.py line 114) then commits; a pivot
incremental turn resolves its target the same way but its loop
(`_p_turn_pivot_sync`, lines 129-148) never touches previous_heading or
prev_heading_num. -/
def applyOp (g : Globals) : Op → Globals
  | Op.headingTurn d => headingCommit d g
  | Op.incrementalTurn a =>
      let t := wrap_0_360 (g.previous_heading.getD g.prev_heading_num 0 + a)
      headingCommit t ⟨t, g.previous_heading, g.prev_heading_num⟩
  | Op.pivotIncremental a =>
      let t := wrap_0_360 (g.previous_heading.getD g.prev_heading_num 0 + a)
      ⟨t, g.previous_heading, g.prev_heading_num⟩

def runOps (ops : List Op) : Globals := ops.foldl applyOp initGlobals

end PTurn

namespace PTurnSpeed

/-- Tuning parameters of p_turn_speed.py (lines 5-15). -/
def p_turn_k_speed : ℚ := 5

def min_speed : ℚ := 50

def max_speed : ℚ := 720

def tolerance : ℚ := 1

def dt_ms : ℕ := 5

def stable_counts_needed : ℕ := 2

def max_ms : ℕ := 8000

def NEAR_DEG : ℚ := 8

def MIN_SPEED_NEAR : ℚ := 40

/-- Helper of p_turn_speed.py lines 24-28: wrap only beyond plus/minus 360. -/
def wrap_0_360 (deg : ℚ) : ℚ := if 360 ≤ deg ∨ deg ≤ -360 then pymod deg 360 else deg

/-- Helper of p_turn_speed.py lines 30-32. -/
def wrapped_err (cur desired : ℚ) : ℚ := pymod (desired - cur + 180) 360 - 180

/-- Helper of p_turn_speed.py lines 34-39. -/
def clamp (x lo hi : ℚ) : ℚ := if x > hi then hi else if x < lo then lo else x

/-- Direction resolution of p_turn_speed.py line 70: `sgn = 1 if err > 0 else -1`. -/
def sgn (err : ℚ) : ℚ := if err > 0 then 1 else -1

/-- Command speed of the sync loop (p_turn_speed.py lines 66-69): `min_eff` is
computed but line 68 adds `min_speed` instead, leaving `min_eff` unused. -/
def syncSpeed (err : ℚ) : ℚ :=
  let abs_err := |err|
  let min_eff := if abs_err < NEAR_DEG then MIN_SPEED_NEAR else min_speed
  clamp (p_turn_k_speed * abs_err + min_speed) (-max_speed) max_speed

/-- Command speed of the async loop (p_turn_speed.py lines 107-110): here the
near-target floor `min_eff` is the one added. -/
def asyncSpeed (err : ℚ) : ℚ :=
  let abs_err := |err|
  let min_eff := if abs_err < NEAR_DEG then MIN_SPEED_NEAR else min_speed
  clamp (p_turn_k_speed * abs_err + min_eff) (-max_speed) max_speed

inductive Status where
  | running
  | converged
  | timedOut
deriving DecidableEq

/-- Last actuation sent to the motor pair: `run l r` for left.run/right.run, or
`hold` for `_stop_both`; `none` in the loop state means nothing sent yet. -/
inductive MotorCmd where
  | hold
  | run (left right : ℚ)
deriving DecidableEq

structure St where
  status : Status
  stable : ℕ
  elapsed : ℕ
  motors : Option MotorCmd
deriving DecidableEq

def initSt : St := ⟨Status.running, 0, 0, none⟩

/-- Tail of each loop iteration (p_turn_speed.py lines 75-79): wait dt_ms,
advance elapsed, and break with the timeout warning once elapsed reaches
max_ms; the post-loop `_stop_both` (line 82) then holds both motors. -/
def afterWait (s : St) : St :=
  let e := s.elapsed + dt_ms
  if e ≥ max_ms then ⟨Status.timedOut, s.stable, e, some MotorCmd.hold⟩
  else ⟨s.status, s.stable, e, s.motors⟩

/-- One iteration of the while-loop of `_p_turn_heading_sync` /
`_p_turn_heading_async` of p_turn_speed.py (lines 54-79 / 96-120), abstracted
over the speed formula (the only line on which the two differ).  In tolerance:
bump the stable counter, stop both motors, and break as Converged once the
counter reaches stable_counts_needed (the convergence break skips the wait).
Out of tolerance: reset the counter and command opposite speeds. -/
def tick (speedOf : ℚ → ℚ) (desired cur : ℚ) (s : St) : St :=
  if s.status = Status.running then
    let err := wrapped_err cur desired
    if |err| ≤ tolerance then
      let s1 : St := ⟨Status.running, s.stable + 1, s.elapsed, some MotorCmd.hold⟩
      if s1.stable ≥ stable_counts_needed then
        ⟨Status.converged, s1.stable, s1.elapsed, some MotorCmd.hold⟩
      else afterWait s1
    else
      let speed := speedOf err
      afterWait ⟨Status.running, 0, s.elapsed, some (MotorCmd.run (sgn err * speed) (-(sgn err) * speed))⟩
  else s

/-- Loop state after n iterations on a sensor trace. -/
def runN (speedOf : ℚ → ℚ) (desired : ℚ) (sensor : ℕ → ℚ) : ℕ → St
  | 0 => initSt
  | n + 1 => tick speedOf desired (sensor n) (runN speedOf desired sensor n)

/-- One complete call of `_p_turn_heading_sync` of p_turn_speed.py: wrap the
target, run the loop to its terminal state (the loop is forced terminal within
max_ms / dt_ms iterations by the timeout), and then unconditionally append the
wrapped target to previous_heading and bump prev_heading_num (lines 84-85,
executed on both the Converged and the TimedOut exit).  Returns the terminal
status together with the updated module state. -/
def session (desired : ℚ) (sensor : ℕ → ℚ) (prev : List ℚ) (num : ℕ) :
    Status × List ℚ × ℕ :=
  let d := wrap_0_360 desired
  let fin := runN syncSpeed d sensor (max_ms / dt_ms)
  (fin.status, prev ++ [d], num + 1)

end PTurnSpeed

namespace PiTurn

/-- Tuning knobs of pi_turn.py (lines 6-16). -/
def kp_turn : ℚ := 1

def ki_turn : ℚ := 2/5

def sum_cap : ℚ := 30

def min_rate : ℚ := 30

def tolerance : ℚ := 1

def dt_s : ℚ := 1/200

/-- Helper of pi_turn.py lines 24-27: wrap only beyond plus/minus 360. -/
def wrap_0_360 (deg : ℚ) : ℚ := if 360 ≤ deg ∨ deg ≤ -360 then pymod deg 360 else deg

/-- Integral-sum clamp of pi_turn.py lines 73-76. -/
def clampSum (x : ℚ) : ℚ := if x > sum_cap then sum_cap else if x < -sum_cap then -sum_cap else x

/-- Integral accumulator after one tick of `_pi_turn_heading_sync` (pi_turn.py
lines 70-76): accumulate err * dt_s, then clamp to the cap. -/
def stepSum (err err_sum : ℚ) : ℚ := clampSum (err_sum + err * dt_s)

/-- Integral term used in the control output (pi_turn.py line 78): the clamp
has already been applied when the sum is scaled by ki. -/
def iTerm (err err_sum : ℚ) : ℚ := ki_turn * stepSum err err_sum

/-- Direction resolution of pi_turn.py lines 87-90: `pid >= 0` gives +1. -/
def piSign (pid : ℚ) : ℚ := if pid ≥ 0 then 1 else -1

end PiTurn

namespace PidTurn

/-- Tuning constants of pid_turn.py (lines 16-22). -/
def kp : ℚ := 1

def ki : ℚ := 1/2

def sum_cap : ℚ := 30

def kd : ℚ := 0

def dt : ℚ := 1/100

def min_rate : ℚ := 22

def error_threshold : ℚ := 1

/-- Helper of pid_turn.py lines 82-85: wrap only beyond plus/minus 360. -/
def wrap_0_360 (deg : ℚ) : ℚ := if 360 ≤ deg ∨ deg ≤ -360 then pymod deg 360 else deg

/-- Output shaping of pid_turn.py lines 58-65: saturate at 100, and floor the
magnitude at min_rate; a pid of exactly 0 satisfies the first floor branch
(`pid < min_rate and pid >= 0`) and becomes +min_rate. -/
def pidShape (pid : ℚ) : ℚ :=
  if pid > 100 then 100
  else if pid < min_rate ∧ pid ≥ 0 then min_rate
  else if pid < -100 then -100
  else if pid > -min_rate ∧ pid ≤ 0 then -min_rate
  else pid

/-- PID loop state of `pid_turn_heading_async` (pid_turn.py lines 33-35). -/
structure St where
  error_prev : ℚ
  error_curr : ℚ
  error_sum : ℚ
deriving DecidableEq

/-- One call of sub_pid (pid_turn.py lines 38-68): the integral term scaled by
ki uses the freshly accumulated error_sum BEFORE the clamp of lines 51-54 is
applied; the clamp only takes effect on the stored sum for the next tick.
Returns the new state, the integral term used this tick, and the duty sent. -/
def subPid (desired cur : ℚ) (s : St) : St × ℚ × ℚ :=
  let error_curr := desired - cur
  let proportional := kp * error_curr
  let error_sum0 := s.error_sum + error_curr * dt
  let integral := ki * error_sum0
  let dedt := (error_curr - s.error_prev) / dt
  let derivative := kd * dedt
  let pid0 := proportional + integral + derivative
  let error_sum1 :=
    if error_sum0 > sum_cap then sum_cap
    else if error_sum0 < -sum_cap then -sum_cap
    else error_sum0
  (⟨error_curr, error_curr, error_sum1⟩, integral, pidShape pid0)

def initSt (desired cur0 : ℚ) : St := ⟨desired - cur0, desired - cur0, 0⟩

/-- PID loop state after n guarded iterations: the while condition of
pid_turn.py line 73 stops the loop once |error_curr| <= |error_threshold|. -/
def runN (desired : ℚ) (sensor : ℕ → ℚ) : ℕ → St
  | 0 => initSt desired (sensor 0)
  | n + 1 =>
      let s := runN desired sensor n
      if |s.error_curr| ≤ |error_threshold| then s
      else (subPid desired (sensor (n + 1)) s).1

/-- Integral term the (n+1)-th sub_pid call contributes to its emitted duty,
or none when the loop has already stopped. -/
def usedIntegral (desired : ℚ) (sensor : ℕ → ℚ) (n : ℕ) : Option ℚ :=
  let s := runN desired sensor n
  if |s.error_curr| ≤ |error_threshold| then none
  else some (subPid desired (sensor (n + 1)) s).2.1

end PidTurn

/-- Sensor trace whose first reading is in tolerance of target 10 and whose
later readings are far away. -/
def c5seq : ℕ → ℚ := fun n => if n = 0 then 10 else 200

namespace PTurnSpeed

/-- Actuation last sent to one wheel in the pivot loop: nothing yet, an
active hold, or a run at a signed speed. -/
inductive WheelCmd where
  | unset
  | hold
  | run (v : ℚ)
deriving DecidableEq

/-- State of the pivot while-loop of `_p_turn_pivot_sync` of p_turn_speed.py
(lines 145-177). -/
structure PivotSt where
  broken : Bool
  elapsed : ℕ
  ml : WheelCmd
  mr : WheelCmd
deriving DecidableEq

/-- One iteration of the pivot while-loop of p_turn_speed.py (lines 150-173):
the loop breaks on the very first in-tolerance sample (no stable counter) or
on timeout, and the post-loop stop (lines 175-176) holds both motors; in this
loop the near-target floor min_eff IS the one added (line 158). -/
def pivotTick (desired : ℚ) (pivot_left : Bool) (cur : ℚ) (s : PivotSt) : PivotSt :=
  if s.broken then s
  else
    let err := wrapped_err cur desired
    if |err| ≤ tolerance then ⟨true, s.elapsed, WheelCmd.hold, WheelCmd.hold⟩
    else
      let abs_err := |err|
      let min_eff := if abs_err < NEAR_DEG then MIN_SPEED_NEAR else min_speed
      let speed := clamp (p_turn_k_speed * abs_err + min_eff) (-max_speed) max_speed
      let ml := if pivot_left then WheelCmd.hold else WheelCmd.run (sgn err * speed)
      let mr := if pivot_left then WheelCmd.run (-(sgn err) * speed) else WheelCmd.hold
      let e := s.elapsed + dt_ms
      if e ≥ max_ms then ⟨true, e, WheelCmd.hold, WheelCmd.hold⟩
      else ⟨false, e, ml, mr⟩

end PTurnSpeed

namespace PiTurn

/-- Base push default of pi_turn.py line 11. -/
def p_turn_c : ℚ := 0

/-- Helper of pi_turn.py lines 29-35: clamp to motor.dc range [-100, 100]. -/
def clamp_dc (x : ℚ) : ℚ := if x > 100 then 100 else if x < -100 then -100 else x

/-- State of the while-loop of `_pi_turn_heading_sync` (pi_turn.py lines
55-105): whether the loop has exited, the consecutive in-tolerance counter,
the integral accumulator, and the last duty commands sent to the two motors. -/
structure LoopSt where
  broken : Bool
  stable : ℕ
  err_sum : ℚ
  left : ℚ
  right : ℚ
deriving DecidableEq

/-- One iteration of the while-loop of `_pi_turn_heading_sync` (pi_turn.py
lines 55-105), given the heading `cur` read at the top of the iteration: the
raw error desired - cur (no shortest-path wrap, line 58), the same debounced
stop condition as p_turn.py (lines 61-66, with the post-loop stop of lines
108-109 zeroing both motors on break), and the PI output path: accumulate and
clamp the integral sum, scale by ki after the clamp, add the base push,
floor the magnitude at min_rate and clamp to the dc range.  As in p_turn.py,
an in-tolerance sample that has not yet reached the needed count falls
through to the control computation. -/
def tick (desired c_parameter cur : ℚ) (s : LoopSt) : LoopSt :=
  if s.broken then s
  else
    let err := desired - cur
    if |err| ≤ tolerance ∧ s.stable + 1 ≥ 2 then
      ⟨true, s.stable + 1, s.err_sum, 0, 0⟩
    else
      let stable1 := if |err| ≤ tolerance then s.stable + 1 else 0
      let p_term := kp_turn * err
      let err_sum1 := clampSum (s.err_sum + err * dt_s)
      let i_term := ki_turn * err_sum1
      let pid := p_term + i_term
      let sg := piSign pid
      let mag := |pid| + c_parameter
      let mag1 := if mag < min_rate then min_rate else mag
      let duty := clamp_dc mag1
      ⟨false, stable1, err_sum1, sg * duty, -sg * duty⟩

/-- State of the pivot while-loop of `_p_turn_pivot_sync` of pi_turn.py
(lines 188-212). -/
structure PivotSt where
  broken : Bool
  ml : ℚ
  mr : ℚ
deriving DecidableEq

/-- One iteration of the pivot while-loop of pi_turn.py (lines 191-208): raw
error (no wrap, line 193), break on the very first in-tolerance sample (no
stable counter), P-only output floored at min_rate; the post-loop stop
(lines 211-212) zeroes both motors. -/
def pivotTick (desired : ℚ) (pivot_left : Bool) (cur : ℚ) (s : PivotSt) : PivotSt :=
  if s.broken then s
  else
    let err := desired - cur
    if |err| ≤ tolerance then ⟨true, 0, 0⟩
    else
      let base := kp_turn * |err| + p_turn_c
      let base1 := if base < min_rate then min_rate else base
      let duty := clamp_dc base1
      let sg : ℚ := if err > 0 then 1 else -1
      if pivot_left then ⟨false, 0, -sg * duty⟩
      else ⟨false, sg * duty, 0⟩

end PiTurn

/-! ## Basic properties of the Python modulo -/

theorem pymod_range (x : ℚ) : 0 ≤ pymod x 360 ∧ pymod x 360 < 360 := by
  have h1 : (⌊x / 360⌋ : ℚ) ≤ x / 360 := Int.floor_le _
  have h2 : x / 360 < ⌊x / 360⌋ + 1 := Int.lt_floor_add_one _
  have h1m : (⌊x / 360⌋ : ℚ) * 360 ≤ x := (le_div_iff₀ (by norm_num : (0:ℚ) < 360)).mp h1
  have h2m : x < ((⌊x / 360⌋ : ℚ) + 1) * 360 := (div_lt_iff₀ (by norm_num : (0:ℚ) < 360)).mp h2
  unfold pymod
  constructor <;> nlinarith [h1m, h2m]

theorem pymod_eq_self (x : ℚ) (h1 : 0 ≤ x) (h2 : x < 360) : pymod x 360 = x := by
  have hf : ⌊x / 360⌋ = 0 := by
    rw [Int.floor_eq_zero_iff]
    constructor
    · positivity
    · rw [div_lt_one (by norm_num : (0:ℚ) < 360)]; exact h2
  unfold pymod
  rw [hf]
  norm_num

theorem pymod_neg_eq (x : ℚ) (h1 : -360 ≤ x) (h2 : x < 0) : pymod x 360 = x + 360 := by
  have hf : ⌊x / 360⌋ = -1 := by
    rw [Int.floor_eq_iff]
    constructor
    · push_cast
      rw [le_div_iff₀ (by norm_num : (0:ℚ) < 360)]
      linarith
    · push_cast
      rw [div_lt_iff₀ (by norm_num : (0:ℚ) < 360)]
      linarith
  unfold pymod
  rw [hf]
  push_cast
  ring

/-! ## Concrete evaluations used throughout -/

theorem wrapped_err_0_10 : PTurn.wrapped_err 0 10 = 10 := by
  unfold PTurn.wrapped_err
  rw [show (10:ℚ) - 0 + 180 = 190 by norm_num, pymod_eq_self 190 (by norm_num) (by norm_num)]
  norm_num

theorem wrapped_err_self (cur : ℚ) : PTurn.wrapped_err cur cur = 0 := by
  unfold PTurn.wrapped_err
  rw [show cur - cur + 180 = (180:ℚ) by ring, pymod_eq_self 180 (by norm_num) (by norm_num)]
  norm_num

/-! ## C9: range and self-annihilation of the shortest-path error -/

/-- C9: for all cur, desired in [0,360), the shortest-path error lies in
[-180,180), the error of a heading against itself is 0, and the helper of the
speed variant agrees with the one of the duty-cycle variant. -/
theorem c9_shortest_error (cur desired : ℚ) (h1 : 0 ≤ cur) (h2 : cur < 360)
    (h3 : 0 ≤ desired) (h4 : desired < 360) :
    (-180 ≤ PTurn.wrapped_err cur desired ∧ PTurn.wrapped_err cur desired < 180) ∧
    PTurn.wrapped_err cur cur = 0 ∧
    PTurnSpeed.wrapped_err cur desired = PTurn.wrapped_err cur desired := by
  refine ⟨⟨?_, ?_⟩, wrapped_err_self cur, rfl⟩
  · have h := (pymod_range (desired - cur + 180)).1
    unfold PTurn.wrapped_err
    linarith
  · have h := (pymod_range (desired - cur + 180)).2
    unfold PTurn.wrapped_err
    linarith

theorem c9_shortest_error_witness :
    ((0:ℚ) ≤ 0 ∧ (0:ℚ) < 360 ∧ (0:ℚ) ≤ 10 ∧ (10:ℚ) < 360) ∧
    ((-180 ≤ PTurn.wrapped_err 0 10 ∧ PTurn.wrapped_err 0 10 < 180) ∧
      PTurn.wrapped_err 0 0 = 0 ∧
      PTurnSpeed.wrapped_err 0 10 = PTurn.wrapped_err 0 10) :=
  ⟨by norm_num,
   c9_shortest_error 0 10 (by norm_num) (by norm_num) (by norm_num) (by norm_num)⟩

/-! ## C2: the normalization helpers disagree on small negatives -/

/-- C2 counterexample: the helper of p_turn.py is an unconditional modulo, so
the small negative -5 is wrapped to 355 instead of passing through unchanged. -/
theorem c2_counterexample : PTurn.wrap_0_360 (-5) = 355 ∧ ((355:ℚ) ≠ -5) := by
  constructor
  · unfold PTurn.wrap_0_360
    rw [pymod_neg_eq (-5) (by norm_num) (by norm_num)]
    norm_num
  · norm_num

/-- C2 amended: the conditional helpers of p_turn_speed.py, pi_turn.py and
pid_turn.py pass every deg with -360 < deg < 360 through unchanged and wrap
every deg beyond into [0,360), and the three are one and the same function;
the helper of p_turn.py instead always reduces into [0,360). -/
theorem c2_normalize_amended :
    (∀ deg : ℚ, -360 < deg → deg < 360 → PTurnSpeed.wrap_0_360 deg = deg) ∧
    (∀ deg : ℚ, 360 ≤ deg ∨ deg ≤ -360 →
      0 ≤ PTurnSpeed.wrap_0_360 deg ∧ PTurnSpeed.wrap_0_360 deg < 360) ∧
    (∀ deg : ℚ, PiTurn.wrap_0_360 deg = PTurnSpeed.wrap_0_360 deg ∧
      PidTurn.wrap_0_360 deg = PTurnSpeed.wrap_0_360 deg) ∧
    (∀ deg : ℚ, 0 ≤ PTurn.wrap_0_360 deg ∧ PTurn.wrap_0_360 deg < 360) := by
  refine ⟨?_, ?_, fun deg => ⟨rfl, rfl⟩, fun deg => pymod_range deg⟩
  · intro deg hlo hhi
    unfold PTurnSpeed.wrap_0_360
    rw [if_neg]
    push_neg
    exact ⟨by linarith, by linarith⟩
  · intro deg h
    unfold PTurnSpeed.wrap_0_360
    rw [if_pos h]
    exact pymod_range deg

theorem c2_normalize_amended_witness :
    ((-360 < (-5:ℚ) ∧ (-5:ℚ) < 360) ∧ PTurnSpeed.wrap_0_360 (-5) = -5) ∧
    (((360:ℚ) ≤ 400 ∨ (400:ℚ) ≤ -360) ∧
      0 ≤ PTurnSpeed.wrap_0_360 400 ∧ PTurnSpeed.wrap_0_360 400 < 360) :=
  ⟨⟨⟨by norm_num, by norm_num⟩,
    c2_normalize_amended.1 (-5) (by norm_num) (by norm_num)⟩,
   ⟨Or.inl (by norm_num),
    c2_normalize_amended.2.1 400 (Or.inl (by norm_num))⟩⟩

/-! ## C8: sign of a zero control value -/

/-- C8 counterexample: the direction resolver of p_turn.py line 57 uses
`err > 0`, so a zero error resolves to -1, not +1. -/
theorem c8_counterexample : PTurn.sgn 0 = -1 ∧ ((-1:ℚ) ≠ 1) := by
  constructor
  · unfold PTurn.sgn
    norm_num
  · norm_num

/-- C8 amended: the PI variant resolves sign with `pid >= 0` (zero positive)
and the PID output shaping floors a zero control to +min_rate, but the P
duty-cycle and speed variants use the strict `err > 0`, so there a zero
resolves to -1. -/
theorem c8_sign_amended :
    PiTurn.piSign 0 = 1 ∧
    PidTurn.pidShape 0 = PidTurn.min_rate ∧ (0:ℚ) < PidTurn.min_rate ∧
    PTurn.sgn 0 = -1 ∧ PTurnSpeed.sgn 0 = -1 := by
  refine ⟨?_, ?_, ?_, ?_, ?_⟩
  · unfold PiTurn.piSign
    norm_num
  · unfold PidTurn.pidShape PidTurn.min_rate
    norm_num
  · unfold PidTurn.min_rate
    norm_num
  · unfold PTurn.sgn
    norm_num
  · unfold PTurnSpeed.sgn
    norm_num

/-! ## C6: sync and async speed-mode command speeds diverge near the target -/

/-- C6: at error 4 (out of tolerance, below NEAR_DEG) the sync loop emits speed
5*4 + min_speed = 70 while the async loop emits 5*4 + MIN_SPEED_NEAR = 60: the
near-target floor min_eff is computed but not applied in the sync loop, so the
two execution modes do not compute the same command speed. -/
theorem c6_sync_async_divergence :
    PTurnSpeed.syncSpeed 4 = 70 ∧ PTurnSpeed.asyncSpeed 4 = 60 ∧
    PTurnSpeed.syncSpeed 4 ≠ PTurnSpeed.asyncSpeed 4 ∧
    (∀ err : ℚ, PTurnSpeed.NEAR_DEG ≤ |err| →
      PTurnSpeed.syncSpeed err = PTurnSpeed.asyncSpeed err) := by
  have hs : PTurnSpeed.syncSpeed 4 = 70 := by
    unfold PTurnSpeed.syncSpeed PTurnSpeed.clamp PTurnSpeed.p_turn_k_speed
      PTurnSpeed.min_speed PTurnSpeed.max_speed
    norm_num
  have ha : PTurnSpeed.asyncSpeed 4 = 60 := by
    unfold PTurnSpeed.asyncSpeed PTurnSpeed.clamp PTurnSpeed.p_turn_k_speed
      PTurnSpeed.min_speed PTurnSpeed.max_speed PTurnSpeed.NEAR_DEG
      PTurnSpeed.MIN_SPEED_NEAR
    norm_num
  refine ⟨hs, ha, by rw [hs, ha]; norm_num, ?_⟩
  intro err h
  simp only [PTurnSpeed.syncSpeed, PTurnSpeed.asyncSpeed]
  rw [if_neg (not_lt.mpr h)]

/-! ## C1: the duty-cycle floor is added to the proportional term -/

theorem tick_static_zero (l r : ℚ) :
    PTurn.tick 10 0 ⟨false, 0, l, r⟩ = ⟨false, 0, 26, -26⟩ := by
  simp only [PTurn.tick, wrapped_err_0_10]
  norm_num [PTurn.tolerance, PTurn.clamp_dc, PTurn.sgn, PTurn.p_turn_k, PTurn.p_turn_c]

theorem run_static (n : ℕ) :
    PTurn.run 10 (fun _ => 0) (n + 1) = ⟨false, 0, 26, -26⟩ := by
  induction n with
  | zero => exact tick_static_zero 0 0
  | succ k ih =>
      show PTurn.tick 10 0 (PTurn.run 10 (fun _ => 0) (k + 1)) = _
      rw [ih]
      exact tick_static_zero 26 (-26)

/-- C1 counterexample: with desired 10 and the sensor fixed at 0 the first
emitted command of the proportional duty-cycle loop is (+26, -26), and 26 is
not the 22 the claim asserts. -/
theorem c1_counterexample :
    (PTurn.run 10 (fun _ => 0) 1).left = 26 ∧
    (PTurn.run 10 (fun _ => 0) 1).right = -26 ∧ ((26:ℚ) ≠ 22) := by
  have h : PTurn.run 10 (fun _ => 0) 1 = ⟨false, 0, 26, -26⟩ := run_static 0
  rw [h]
  norm_num

/-- C1 corrected: with desired 10, sensor fixed at 0, tolerance 1, kp 0.4 and
floor 22, the error each tick is 10, the magnitude is kp*|err| + c = 26 (the
floor is added to the proportional term, not taken as a max), and every tick
of the never-converging loop emits exactly (+26, -26). -/
theorem c1_floor_added :
    PTurn.wrapped_err 0 10 = 10 ∧
    PTurn.p_turn_k * |PTurn.wrapped_err 0 10| + PTurn.p_turn_c = 26 ∧
    ∀ n : ℕ, PTurn.run 10 (fun _ => 0) (n + 1) = ⟨false, 0, 26, -26⟩ := by
  refine ⟨wrapped_err_0_10, ?_, run_static⟩
  rw [wrapped_err_0_10]
  norm_num [PTurn.p_turn_k, PTurn.p_turn_c]

/-! ## C5: debounce in the heading loops, single-sample stop elsewhere -/

/-- C5 counterexample: the pivot loop of p_turn.py stops after its very first
in-tolerance sample (the sample at tick 0 is on target, the one at tick 1 is
190 degrees off but the loop has already broken). -/
theorem c5_counterexample :
    (PTurn.pivotRun 10 true c5seq 1).broken = true ∧
    |PTurn.wrapped_err (c5seq 0) 10| ≤ PTurn.tolerance ∧
    PTurn.tolerance < |PTurn.wrapped_err (c5seq 1) 10| := by
  have hc0 : c5seq 0 = 10 := rfl
  have hc1 : c5seq 1 = 200 := rfl
  have h1 : PTurn.wrapped_err 200 10 = 170 := by
    unfold PTurn.wrapped_err
    rw [show (10:ℚ) - 200 + 180 = -10 by norm_num,
      pymod_neg_eq (-10) (by norm_num) (by norm_num)]
    norm_num
  refine ⟨?_, ?_, ?_⟩
  · show (PTurn.pivotTick 10 true (c5seq 0) ⟨false, 0, 0⟩).broken = true
    rw [hc0]
    simp only [PTurn.pivotTick, wrapped_err_self]
    norm_num [PTurn.tolerance]
  · rw [hc0, wrapped_err_self]
    norm_num [PTurn.tolerance]
  · rw [hc1, h1]
    norm_num [PTurn.tolerance]

/-- C5 corrected: the heading loops of p_turn.py, p_turn_speed.py and
pi_turn.py debounce: an out-of-tolerance sample resets the counter to 0 and
is never taken as convergence, and a single in-tolerance sample from a zero
counter does not stop the loop either (it only sets the counter to 1; in the
speed variant a tick can still end by timeout, never as Converged).  But the
pivot loops of all three modules break on the very first in-tolerance sample,
and the PID loop of pid_turn.py stops as soon as one sample is in tolerance,
with no stable counter at all. -/
theorem c5_debounce_amended :
    (∀ desired cur : ℚ, ∀ s : PTurn.LoopSt, s.broken = false →
      PTurn.tolerance < |PTurn.wrapped_err cur desired| →
        (PTurn.tick desired cur s).broken = false ∧
        (PTurn.tick desired cur s).stable = 0) ∧
    (∀ desired cur : ℚ, ∀ s : PTurn.LoopSt, s.broken = false → s.stable = 0 →
      |PTurn.wrapped_err cur desired| ≤ PTurn.tolerance →
        (PTurn.tick desired cur s).broken = false ∧
        (PTurn.tick desired cur s).stable = 1) ∧
    (∀ speedOf : ℚ → ℚ, ∀ desired cur : ℚ, ∀ s : PTurnSpeed.St,
      s.status = PTurnSpeed.Status.running →
      PTurnSpeed.tolerance < |PTurnSpeed.wrapped_err cur desired| →
        (PTurnSpeed.tick speedOf desired cur s).status ≠ PTurnSpeed.Status.converged ∧
        (PTurnSpeed.tick speedOf desired cur s).stable = 0) ∧
    (∀ speedOf : ℚ → ℚ, ∀ desired cur : ℚ, ∀ s : PTurnSpeed.St,
      s.status = PTurnSpeed.Status.running → s.stable = 0 →
      |PTurnSpeed.wrapped_err cur desired| ≤ PTurnSpeed.tolerance →
        (PTurnSpeed.tick speedOf desired cur s).status ≠ PTurnSpeed.Status.converged ∧
        (PTurnSpeed.tick speedOf desired cur s).stable = 1) ∧
    (∀ desired c cur : ℚ, ∀ s : PiTurn.LoopSt, s.broken = false →
      PiTurn.tolerance < |desired - cur| →
        (PiTurn.tick desired c cur s).broken = false ∧
        (PiTurn.tick desired c cur s).stable = 0) ∧
    (∀ desired c cur : ℚ, ∀ s : PiTurn.LoopSt, s.broken = false → s.stable = 0 →
      |desired - cur| ≤ PiTurn.tolerance →
        (PiTurn.tick desired c cur s).broken = false ∧
        (PiTurn.tick desired c cur s).stable = 1) ∧
    (∀ desired cur : ℚ, ∀ pl : Bool, ∀ s : PTurn.PivotSt, s.broken = false →
      |PTurn.wrapped_err cur desired| ≤ PTurn.tolerance →
        (PTurn.pivotTick desired pl cur s).broken = true) ∧
    (∀ desired cur : ℚ, ∀ pl : Bool, ∀ s : PTurnSpeed.PivotSt, s.broken = false →
      |PTurnSpeed.wrapped_err cur desired| ≤ PTurnSpeed.tolerance →
        (PTurnSpeed.pivotTick desired pl cur s).broken = true) ∧
    (∀ desired cur : ℚ, ∀ pl : Bool, ∀ s : PiTurn.PivotSt, s.broken = false →
      |desired - cur| ≤ PiTurn.tolerance →
        (PiTurn.pivotTick desired pl cur s).broken = true) ∧
    (∀ desired : ℚ, ∀ sensor : ℕ → ℚ, ∀ n : ℕ,
      |(PidTurn.runN desired sensor n).error_curr| ≤ |PidTurn.error_threshold| →
        PidTurn.runN desired sensor (n + 1) = PidTurn.runN desired sensor n) := by
  refine ⟨?_, ?_, ?_, ?_, ?_, ?_, ?_, ?_, ?_, ?_⟩
  · intro desired cur s hb h
    have hn := not_le.mpr h
    constructor <;> simp [PTurn.tick, hb, hn]
  · intro desired cur s hb hs hin
    constructor <;> simp [PTurn.tick, hb, hs, hin]
  · intro speedOf desired cur s hst h
    have hn := not_le.mpr h
    unfold PTurnSpeed.tick PTurnSpeed.afterWait
    rw [hst]
    constructor <;> simp [hn] <;> split_ifs <;> simp
  · intro speedOf desired cur s hst hsb hin
    unfold PTurnSpeed.tick PTurnSpeed.afterWait
    rw [hst]
    constructor <;> simp [hin, hsb, PTurnSpeed.stable_counts_needed] <;>
      split_ifs <;> simp
  · intro desired c cur s hb h
    have hn := not_le.mpr h
    constructor <;> simp [PiTurn.tick, hb, hn]
  · intro desired c cur s hb hs hin
    constructor <;> simp [PiTurn.tick, hb, hs, hin]
  · intro desired cur pl s hb hin
    simp [PTurn.pivotTick, hb, hin]
  · intro desired cur pl s hb hin
    simp [PTurnSpeed.pivotTick, hb, hin]
  · intro desired cur pl s hb hin
    simp [PiTurn.pivotTick, hb, hin]
  · intro desired sensor n h
    simp [PidTurn.runN, h]

theorem c5_debounce_amended_witness :
    (PTurn.tolerance < |PTurn.wrapped_err 0 10| ∧
      (PTurn.tick 10 0 ⟨false, 0, 0, 0⟩).broken = false ∧
      (PTurn.tick 10 0 ⟨false, 0, 0, 0⟩).stable = 0) ∧
    ((PTurnSpeed.initSt.status = PTurnSpeed.Status.running ∧
       PTurnSpeed.initSt.stable = 0 ∧
       |PTurnSpeed.wrapped_err 10 10| ≤ PTurnSpeed.tolerance) ∧
      (PTurnSpeed.tick PTurnSpeed.syncSpeed 10 10 PTurnSpeed.initSt).status ≠
        PTurnSpeed.Status.converged ∧
      (PTurnSpeed.tick PTurnSpeed.syncSpeed 10 10 PTurnSpeed.initSt).stable = 1) ∧
    (|(10:ℚ) - 10| ≤ PiTurn.tolerance ∧
      (PiTurn.tick 10 0 10 ⟨false, 0, 0, 0, 0⟩).broken = false ∧
      (PiTurn.tick 10 0 10 ⟨false, 0, 0, 0, 0⟩).stable = 1) ∧
    (|PTurn.wrapped_err 10 10| ≤ PTurn.tolerance ∧
      (PTurn.pivotTick 10 true 10 ⟨false, 0, 0⟩).broken = true) ∧
    (|PTurnSpeed.wrapped_err 10 10| ≤ PTurnSpeed.tolerance ∧
      (PTurnSpeed.pivotTick 10 true 10
        ⟨false, 0, PTurnSpeed.WheelCmd.unset, PTurnSpeed.WheelCmd.unset⟩).broken = true) ∧
    (|(10:ℚ) - 10| ≤ PiTurn.tolerance ∧
      (PiTurn.pivotTick 10 true 10 ⟨false, 0, 0⟩).broken = true) ∧
    (|(PidTurn.runN 0 (fun _ => 0) 0).error_curr| ≤ |PidTurn.error_threshold| ∧
      PidTurn.runN 0 (fun _ => 0) 1 = PidTurn.runN 0 (fun _ => 0) 0) := by
  have hout : PTurn.tolerance < |PTurn.wrapped_err 0 10| := by
    rw [wrapped_err_0_10]
    norm_num [PTurn.tolerance]
  have hin : |PTurn.wrapped_err 10 10| ≤ PTurn.tolerance := by
    rw [wrapped_err_self]
    norm_num [PTurn.tolerance]
  have hins : |PTurnSpeed.wrapped_err 10 10| ≤ PTurnSpeed.tolerance := hin
  have hinp : |(10:ℚ) - 10| ≤ PiTurn.tolerance := by norm_num [PiTurn.tolerance]
  have hpid : |(PidTurn.runN 0 (fun _ => 0) 0).error_curr| ≤ |PidTurn.error_threshold| := by
    norm_num [PidTurn.runN, PidTurn.initSt, PidTurn.error_threshold]
  refine ⟨⟨hout, ?_, ?_⟩, ⟨⟨rfl, rfl, hins⟩, ?_, ?_⟩, ⟨hinp, ?_, ?_⟩,
    ⟨hin, ?_⟩, ⟨hins, ?_⟩, ⟨hinp, ?_⟩, ⟨hpid, ?_⟩⟩
  · exact (c5_debounce_amended.1 10 0 ⟨false, 0, 0, 0⟩ rfl hout).1
  · exact (c5_debounce_amended.1 10 0 ⟨false, 0, 0, 0⟩ rfl hout).2
  · exact (c5_debounce_amended.2.2.2.1 PTurnSpeed.syncSpeed 10 10 PTurnSpeed.initSt rfl rfl hins).1
  · exact (c5_debounce_amended.2.2.2.1 PTurnSpeed.syncSpeed 10 10 PTurnSpeed.initSt rfl rfl hins).2
  · exact (c5_debounce_amended.2.2.2.2.2.1 10 0 10 ⟨false, 0, 0, 0, 0⟩ rfl rfl hinp).1
  · exact (c5_debounce_amended.2.2.2.2.2.1 10 0 10 ⟨false, 0, 0, 0, 0⟩ rfl rfl hinp).2
  · exact c5_debounce_amended.2.2.2.2.2.2.1 10 10 true ⟨false, 0, 0⟩ rfl hin
  · exact c5_debounce_amended.2.2.2.2.2.2.2.1 10 10 true
      ⟨false, 0, PTurnSpeed.WheelCmd.unset, PTurnSpeed.WheelCmd.unset⟩ rfl hins
  · exact c5_debounce_amended.2.2.2.2.2.2.2.2.1 10 10 true ⟨false, 0, 0⟩ rfl hinp
  · exact c5_debounce_amended.2.2.2.2.2.2.2.2.2 0 (fun _ => 0) 0 hpid

/-! ## C3 and C4: timeout behavior of the loops -/

theorem pTurn_never_breaks (desired : ℚ) (sensor : ℕ → ℚ)
    (h : ∀ i, PTurn.tolerance < |PTurn.wrapped_err (sensor i) desired|) :
    ∀ n, (PTurn.run desired sensor n).broken = false ∧
      (PTurn.run desired sensor n).stable = 0 := by
  intro n
  induction n with
  | zero => exact ⟨rfl, rfl⟩
  | succ k ih =>
      have hn := not_le.mpr (h k)
      constructor <;> simp [PTurn.run, PTurn.tick, ih.1, hn]

theorem speed_run_state (speedOf : ℚ → ℚ) (desired : ℚ) (sensor : ℕ → ℚ)
    (h : ∀ i, PTurnSpeed.tolerance < |PTurnSpeed.wrapped_err (sensor i) desired|) :
    ∀ n, n ≤ 1599 →
      (PTurnSpeed.runN speedOf desired sensor n).status = PTurnSpeed.Status.running ∧
      (PTurnSpeed.runN speedOf desired sensor n).stable = 0 ∧
      (PTurnSpeed.runN speedOf desired sensor n).elapsed = 5 * n := by
  intro n
  induction n with
  | zero => exact fun _ => ⟨rfl, rfl, rfl⟩
  | succ k ih =>
      intro hk
      obtain ⟨hst, hsb, hel⟩ := ih (Nat.le_of_succ_le hk)
      have hn := not_le.mpr (h k)
      have hlt : ¬((8000:ℕ) ≤ 5 * k + 5) := by omega
      refine ⟨?_, ?_, ?_⟩ <;>
        simp [PTurnSpeed.runN, PTurnSpeed.tick, PTurnSpeed.afterWait, hst, hsb, hel, hn,
          hlt, PTurnSpeed.dt_ms, PTurnSpeed.max_ms, Nat.mul_succ]

theorem speed_runN_succ (speedOf : ℚ → ℚ) (desired : ℚ) (sensor : ℕ → ℚ) (n : ℕ) :
    PTurnSpeed.runN speedOf desired sensor (n + 1) =
      PTurnSpeed.tick speedOf desired (sensor n)
        (PTurnSpeed.runN speedOf desired sensor n) := rfl

theorem speed_tick_timeout (speedOf : ℚ → ℚ) (desired cur : ℚ) (s : PTurnSpeed.St)
    (hst : s.status = PTurnSpeed.Status.running)
    (hge : PTurnSpeed.max_ms ≤ s.elapsed + PTurnSpeed.dt_ms)
    (hn : ¬|PTurnSpeed.wrapped_err cur desired| ≤ PTurnSpeed.tolerance) :
    (PTurnSpeed.tick speedOf desired cur s).status = PTurnSpeed.Status.timedOut ∧
    (PTurnSpeed.tick speedOf desired cur s).motors = some PTurnSpeed.MotorCmd.hold := by
  constructor <;> simp [PTurnSpeed.tick, PTurnSpeed.afterWait, hst, hn, hge]

theorem speed_run_timeout (speedOf : ℚ → ℚ) (desired : ℚ) (sensor : ℕ → ℚ)
    (h : ∀ i, PTurnSpeed.tolerance < |PTurnSpeed.wrapped_err (sensor i) desired|) :
    (PTurnSpeed.runN speedOf desired sensor 1600).status = PTurnSpeed.Status.timedOut ∧
    (PTurnSpeed.runN speedOf desired sensor 1600).motors = some PTurnSpeed.MotorCmd.hold := by
  obtain ⟨hst, hsb, hel⟩ := speed_run_state speedOf desired sensor h 1599 (by norm_num)
  have e1600 : (1600:ℕ) = 1599 + 1 := by norm_num
  rw [e1600, speed_runN_succ speedOf desired sensor 1599]
  refine speed_tick_timeout speedOf desired (sensor 1599) _ hst ?_ (not_le.mpr (h 1599))
  rw [hel]
  norm_num [PTurnSpeed.dt_ms, PTurnSpeed.max_ms]

/-- C3 counterexample: the duty-cycle P loop of p_turn.py has no timeout at
all: with desired 10 and a sensor fixed at 0 it is still running after 20000
ticks, far beyond the 1600-tick budget the speed variant enforces. -/
theorem c3_counterexample : (PTurn.run 10 (fun _ => 0) 20000).broken = false := by
  have h : PTurn.run 10 (fun _ => 0) 20000 = ⟨false, 0, 26, -26⟩ := run_static 19999
  rw [h]

/-- C3 corrected: only the speed-mode variant enforces the timeout.  For any
turn whose sensor never yields an in-tolerance reading, the speed-mode loop is
still running at every tick below max_ms/dt_ms = 1600, reaches TimedOut at
exactly tick 1600 with both motors held, while the duty-cycle P loop of
p_turn.py never exits at any tick count. -/
theorem c3_timeout_amended (desired : ℚ) (sensor : ℕ → ℚ)
    (h : ∀ i, PTurn.tolerance < |PTurn.wrapped_err (sensor i) desired|) :
    ((∀ n, n ≤ 1599 →
        (PTurnSpeed.runN PTurnSpeed.syncSpeed desired sensor n).status =
          PTurnSpeed.Status.running) ∧
      (PTurnSpeed.runN PTurnSpeed.syncSpeed desired sensor 1600).status =
        PTurnSpeed.Status.timedOut ∧
      (PTurnSpeed.runN PTurnSpeed.syncSpeed desired sensor 1600).motors =
        some PTurnSpeed.MotorCmd.hold) ∧
    (∀ n, (PTurn.run desired sensor n).broken = false) := by
  have h' : ∀ i, PTurnSpeed.tolerance < |PTurnSpeed.wrapped_err (sensor i) desired| := h
  exact ⟨⟨fun n hn => (speed_run_state PTurnSpeed.syncSpeed desired sensor h' n hn).1,
      (speed_run_timeout PTurnSpeed.syncSpeed desired sensor h').1,
      (speed_run_timeout PTurnSpeed.syncSpeed desired sensor h').2⟩,
    fun n => (pTurn_never_breaks desired sensor h n).1⟩

theorem c3_timeout_amended_witness :
    (∀ i : ℕ, PTurn.tolerance < |PTurn.wrapped_err ((fun _ => (0:ℚ)) i) 10|) ∧
    ((PTurnSpeed.runN PTurnSpeed.syncSpeed 10 (fun _ => 0) 1600).status =
        PTurnSpeed.Status.timedOut ∧
      (PTurnSpeed.runN PTurnSpeed.syncSpeed 10 (fun _ => 0) 1600).motors =
        some PTurnSpeed.MotorCmd.hold) ∧
    (PTurn.run 10 (fun _ => 0) 5000).broken = false := by
  have hh : ∀ i : ℕ, PTurn.tolerance < |PTurn.wrapped_err ((fun _ => (0:ℚ)) i) 10| := by
    intro i
    show PTurn.tolerance < |PTurn.wrapped_err 0 10|
    rw [wrapped_err_0_10]
    norm_num [PTurn.tolerance]
  exact ⟨hh, ⟨(c3_timeout_amended 10 (fun _ => 0) hh).1.2.1,
      (c3_timeout_amended 10 (fun _ => 0) hh).1.2.2⟩,
    (c3_timeout_amended 10 (fun _ => 0) hh).2 5000⟩

/-- C4: with desired 10 and a sensor fixed at 0, the speed-mode sync session
ends in TimedOut yet still appends the (unreached) target 10 to
previous_heading and bumps prev_heading_num: the tracked baseline silently
advances on timeout, which the spec forbids. -/
theorem c4_baseline_advanced_on_timeout :
    PTurnSpeed.session 10 (fun _ => 0) [0] 0 =
      (PTurnSpeed.Status.timedOut, [0, 10], 1) := by
  have hw : PTurnSpeed.wrap_0_360 10 = 10 := by
    unfold PTurnSpeed.wrap_0_360
    rw [if_neg]
    push_neg
    norm_num
  have hh : ∀ i : ℕ, PTurnSpeed.tolerance < |PTurnSpeed.wrapped_err ((fun _ => (0:ℚ)) i) 10| := by
    intro i
    show PTurnSpeed.tolerance < |PTurnSpeed.wrapped_err 0 10|
    have he : PTurnSpeed.wrapped_err 0 10 = 10 := wrapped_err_0_10
    rw [he]
    norm_num [PTurnSpeed.tolerance]
  have ht := speed_run_timeout PTurnSpeed.syncSpeed 10 (fun _ => 0) hh
  simp only [PTurnSpeed.session, hw]
  have hmd : PTurnSpeed.max_ms / PTurnSpeed.dt_ms = 1600 := rfl
  rw [hmd, ht.1]
  rfl

/-! ## C7: where the integral clamp sits relative to the ki scaling -/

set_option maxRecDepth 8000 in
/-- C7 counterexample: in the PID loop with desired 350 and the sensor fixed
at 0, the ninth sub_pid call accumulates error_sum to 31.5 and scales it by
ki before the clamp runs, contributing an integral term of 15.75 to the duty,
strictly above ki * sum_cap = 15. -/
theorem c7_counterexample :
    PidTurn.usedIntegral 350 (fun _ => 0) 8 = some (63/4) ∧
    PidTurn.ki * PidTurn.sum_cap = 15 ∧ (15:ℚ) < 63/4 := by
  refine ⟨?_, by norm_num [PidTurn.ki, PidTurn.sum_cap], by norm_num⟩
  norm_num [PidTurn.usedIntegral, PidTurn.runN, PidTurn.subPid, PidTurn.initSt,
    PidTurn.error_threshold, PidTurn.dt, PidTurn.ki, PidTurn.kp, PidTurn.kd,
    PidTurn.sum_cap]

/-- C7 corrected: the PI variant clamps the accumulator before scaling it by
ki, so its integral term never exceeds ki_turn * sum_cap = 12 in magnitude;
the PID variant scales the freshly accumulated, still unclamped sum, so the
term it uses is only bounded by ki * (sum_cap + |error| * dt) when the stored
accumulator was within the cap, and the stored accumulator is re-clamped to
within sum_cap for the next tick. -/
theorem c7_integral_clamp_amended :
    (∀ err err_sum : ℚ, |PiTurn.iTerm err err_sum| ≤ PiTurn.ki_turn * PiTurn.sum_cap) ∧
    (∀ desired cur : ℚ, ∀ s : PidTurn.St, |s.error_sum| ≤ PidTurn.sum_cap →
      |(PidTurn.subPid desired cur s).2.1| ≤
        PidTurn.ki * (PidTurn.sum_cap + |desired - cur| * PidTurn.dt)) ∧
    (∀ desired cur : ℚ, ∀ s : PidTurn.St,
      |(PidTurn.subPid desired cur s).1.error_sum| ≤ PidTurn.sum_cap) := by
  refine ⟨?_, ?_, ?_⟩
  · intro err err_sum
    have hc : |PiTurn.clampSum (err_sum + err * PiTurn.dt_s)| ≤ 30 := by
      unfold PiTurn.clampSum PiTurn.sum_cap
      split_ifs with h1 h2
      · norm_num
      · norm_num
      · push_neg at h1 h2
        rw [abs_le]
        exact ⟨by linarith, by linarith⟩
    unfold PiTurn.iTerm PiTurn.stepSum PiTurn.ki_turn PiTurn.sum_cap
    rw [abs_mul, show |(2/5 : ℚ)| = 2/5 by norm_num]
    nlinarith [hc, abs_nonneg (PiTurn.clampSum (err_sum + err * PiTurn.dt_s))]
  · intro desired cur s h
    have hv : (PidTurn.subPid desired cur s).2.1 =
        PidTurn.ki * (s.error_sum + (desired - cur) * PidTurn.dt) := rfl
    rw [hv, abs_mul, show |PidTurn.ki| = PidTurn.ki by norm_num [PidTurn.ki]]
    have h2 : |(desired - cur) * PidTurn.dt| = |desired - cur| * PidTurn.dt := by
      rw [abs_mul, abs_of_nonneg (show (0:ℚ) ≤ PidTurn.dt by norm_num [PidTurn.dt])]
    have hb : |s.error_sum + (desired - cur) * PidTurn.dt| ≤
        PidTurn.sum_cap + |desired - cur| * PidTurn.dt := by
      have h1 := abs_add s.error_sum ((desired - cur) * PidTurn.dt)
      rw [h2] at h1
      linarith
    exact mul_le_mul_of_nonneg_left hb (by norm_num [PidTurn.ki])
  · intro desired cur s
    have hv : (PidTurn.subPid desired cur s).1.error_sum =
        (if s.error_sum + (desired - cur) * PidTurn.dt > PidTurn.sum_cap then
          PidTurn.sum_cap
         else if s.error_sum + (desired - cur) * PidTurn.dt < -PidTurn.sum_cap then
          -PidTurn.sum_cap
         else s.error_sum + (desired - cur) * PidTurn.dt) := rfl
    rw [hv]
    unfold PidTurn.sum_cap
    split_ifs with h1 h2
    · norm_num
    · norm_num
    · push_neg at h1 h2
      rw [abs_le]
      exact ⟨by linarith, by linarith⟩

theorem c7_integral_clamp_amended_witness :
    |(PidTurn.St.mk 350 350 0).error_sum| ≤ PidTurn.sum_cap ∧
    |(PidTurn.subPid 350 0 ⟨350, 350, 0⟩).2.1| ≤
      PidTurn.ki * (PidTurn.sum_cap + |(350:ℚ) - 0| * PidTurn.dt) :=
  ⟨by norm_num [PidTurn.sum_cap],
   c7_integral_clamp_amended.2.1 350 0 ⟨350, 350, 0⟩ (by norm_num [PidTurn.sum_cap])⟩

/-! ## C10: the tracked-heading bookkeeping of p_turn.py -/

theorem applyOp_inv (g : PTurn.Globals) (op : PTurn.Op)
    (h : g.prev_heading_num + 1 = g.previous_heading.length) :
    (PTurn.applyOp g op).prev_heading_num + 1 =
      (PTurn.applyOp g op).previous_heading.length := by
  cases op with
  | headingTurn d =>
      simp [PTurn.applyOp, PTurn.headingCommit]
      omega
  | incrementalTurn a =>
      simp [PTurn.applyOp, PTurn.headingCommit]
      omega
  | pivotIncremental a =>
      simpa [PTurn.applyOp] using h

theorem runOps_inv (ops : List PTurn.Op) :
    (PTurn.runOps ops).prev_heading_num + 1 =
      (PTurn.runOps ops).previous_heading.length := by
  suffices hgen : ∀ (l : List PTurn.Op) (g : PTurn.Globals),
      g.prev_heading_num + 1 = g.previous_heading.length →
      (l.foldl PTurn.applyOp g).prev_heading_num + 1 =
        (l.foldl PTurn.applyOp g).previous_heading.length by
    exact hgen ops PTurn.initGlobals rfl
  intro l
  induction l with
  | nil => intro g hg; exact hg
  | cons op rest ih => intro g hg; exact ih (PTurn.applyOp g op) (applyOp_inv g op hg)

theorem getLast_eq_of_len (l : List ℚ) (n : ℕ) (h : n + 1 = l.length) :
    l.getLast? = l[n]? := by
  rw [List.getLast?_eq_getElem?]
  congr 1
  omega

theorem runOps_append_one (ops : List PTurn.Op) (op : PTurn.Op) :
    PTurn.runOps (ops ++ [op]) = PTurn.applyOp (PTurn.runOps ops) op := by
  unfold PTurn.runOps
  rw [List.foldl_append]
  rfl

theorem wrap_0_360_idem (x : ℚ) :
    PTurn.wrap_0_360 (PTurn.wrap_0_360 x) = PTurn.wrap_0_360 x := by
  unfold PTurn.wrap_0_360
  exact pymod_eq_self _ (pymod_range x).1 (pymod_range x).2

/-- C10: after any sequence of completed public operations of p_turn.py, the
index prev_heading_num equals len(previous_heading) - 1 and the indexed entry
is exactly the last element of the list; a heading turn appends its wrapped
target there, an incremental turn appends the wrapped sum of the indexed
baseline and the requested amount, and a pivot incremental turn changes
neither the list nor the index, so the indexed entry is always the most
recently committed target heading. -/
theorem c10_tracked_heading_invariant :
    ∀ ops : List PTurn.Op,
      ((PTurn.runOps ops).prev_heading_num + 1 =
        (PTurn.runOps ops).previous_heading.length) ∧
      ((PTurn.runOps ops).previous_heading.getLast? =
        (PTurn.runOps ops).previous_heading[(PTurn.runOps ops).prev_heading_num]?) ∧
      (∀ d : ℚ,
        (PTurn.runOps (ops ++ [PTurn.Op.headingTurn d])).previous_heading =
          (PTurn.runOps ops).previous_heading ++ [PTurn.wrap_0_360 d] ∧
        (PTurn.runOps (ops ++ [PTurn.Op.headingTurn d])).prev_heading_num =
          (PTurn.runOps ops).prev_heading_num + 1) ∧
      (∀ a : ℚ,
        (PTurn.runOps (ops ++ [PTurn.Op.incrementalTurn a])).previous_heading =
          (PTurn.runOps ops).previous_heading ++
            [PTurn.wrap_0_360 ((PTurn.runOps ops).previous_heading.getD
              (PTurn.runOps ops).prev_heading_num 0 + a)] ∧
        (PTurn.runOps (ops ++ [PTurn.Op.incrementalTurn a])).prev_heading_num =
          (PTurn.runOps ops).prev_heading_num + 1) ∧
      (∀ a : ℚ,
        (PTurn.runOps (ops ++ [PTurn.Op.pivotIncremental a])).previous_heading =
          (PTurn.runOps ops).previous_heading ∧
        (PTurn.runOps (ops ++ [PTurn.Op.pivotIncremental a])).prev_heading_num =
          (PTurn.runOps ops).prev_heading_num) := by
  intro ops
  refine ⟨runOps_inv ops, getLast_eq_of_len _ _ (runOps_inv ops), ?_, ?_, ?_⟩
  · intro d
    rw [runOps_append_one]
    exact ⟨rfl, rfl⟩
  · intro a
    rw [runOps_append_one]
    constructor
    · show (PTurn.runOps ops).previous_heading ++
        [PTurn.wrap_0_360 (PTurn.wrap_0_360 ((PTurn.runOps ops).previous_heading.getD
          (PTurn.runOps ops).prev_heading_num 0 + a))] = _
      rw [wrap_0_360_idem]
    · rfl
  · intro a
    rw [runOps_append_one]
    exact ⟨rfl, rfl⟩
